import Mathlib

/-!
# Verification of the fashion-webapp content-lookup and filtering model

Shallow embedding of `src/fashion_webapp/app.py`. Posts are records; the
Post Store is a `List Post`. The three lookup operations are translated
from the list/generator expressions in the route handlers:

* `find_by_slug`   — `next((p for p in posts if p['slug'] == slug), None)`
* `filter_by_category` — `[p for p in posts if p['category'] == name]`
* `filter_by_tag`  — `[p for p in posts if name in p['tags']]`

Route handlers are embedded as explicit state-passing functions
`List Post → ... → HandlerResult`, where `HandlerResult` carries the
(possibly updated) store, the HTTP response, and the lines printed to the
log. Since the Python handlers never assign to the global `posts` list,
each embedded handler returns the store it was given; the theorems below
make that frame condition explicit.
-/

/-- A blog post record, with the fields of the dictionaries in `posts`
(`app.py`, lines 14 to 36). -/
structure Post where
  id : Nat
  title : String
  slug : String
  content : String
  image : String
  category : String
  tags : List String
  date : String
deriving DecidableEq, Repr

/-- The sample Post Store literal from `app.py`. -/
def posts : List Post :=
  [ { id := 1
    , title := "The Rise of Sustainable Fashion"
    , slug := "sustainable-fashion"
    , content := "Explore the growing movement towards eco-conscious clothing..."
    , image := "static/img/sustainable.jpg"
    , category := "Trends"
    , tags := ["sustainable", "eco-friendly", "fashion"]
    , date := "2025-05-09" }
  , { id := 2
    , title := "Styling a Classic Trench Coat"
    , slug := "trench-coat-styling"
    , content := "Versatile ways to wear a timeless trench coat..."
    , image := "static/img/trench.jpg"
    , category := "Style Tips"
    , tags := ["classic", "outerwear", "styling"]
    , date := "2025-05-08" }
  ]

/-- The flat category reference list from `app.py`, line 38. -/
def categories : List String := ["Trends", "Style Tips", "Designer Spotlights"]

/-- The flat tag reference list from `app.py`, line 39. -/
def tags : List String :=
  ["sustainable", "eco-friendly", "fashion", "classic", "outerwear", "styling"]

/-- `next((p for p in posts if p['slug'] == slug), None)` (`app.py`, line 48):
linear scan, first match or `none`. -/
def find_by_slug (store : List Post) (slug : String) : Option Post :=
  store.find? (fun p => p.slug == slug)

/-- `[p for p in posts if p['category'] == name]` (`app.py`, line 55). -/
def filter_by_category (store : List Post) (name : String) : List Post :=
  store.filter (fun p => p.category == name)

/-- `[p for p in posts if name in p['tags']]` (`app.py`, line 60). -/
def filter_by_tag (store : List Post) (name : String) : List Post :=
  store.filter (fun p => p.tags.contains name)

/-- An HTTP response as produced by the handlers: a rendered template with
a status code, a redirect, or the 400 Bad Request that Flask raises when
`request.form[key]` is missing the key. -/
inductive Response where
  | render (template : String) (status : Nat)
  | redirect (location : String)
  | badRequest
deriving DecidableEq, Repr

/-- Result of running one handler: the store after the call, the response,
and the lines printed to stdout. -/
structure HandlerResult where
  posts : List Post
  response : Response
  log : List String
deriving DecidableEq, Repr

/-- Handler for `GET /post/<slug>` (`app.py`, lines 46 to 51): render the
post page for the first matching post, else the 404 page with status 404. -/
def post_route (store : List Post) (slug : String) : HandlerResult :=
  match find_by_slug store slug with
  | some _p => ⟨store, Response.render "post.html" 200, []⟩
  | none => ⟨store, Response.render "404.html" 404, []⟩

/-- Handler for `GET /category/<name>` (`app.py`, lines 53 to 56). -/
def category_route (store : List Post) (name : String) : HandlerResult :=
  let _category_posts := filter_by_category store name
  ⟨store, Response.render "category.html" 200, []⟩

/-- Handler for `GET /tag/<name>` (`app.py`, lines 58 to 61). -/
def tag_route (store : List Post) (name : String) : HandlerResult :=
  let _tag_posts := filter_by_tag store name
  ⟨store, Response.render "tag.html" 200, []⟩

/-- HTTP request method, as dispatched on by `request.method`. -/
inductive Method where
  | GET
  | POST
deriving DecidableEq, Repr

/-- `request.form[key]`: first value bound to `key` in the submitted form
data, if any. -/
def formGet (form : List (String × String)) (key : String) : Option String :=
  (form.find? (fun kv => kv.fst == key)).map (fun kv => kv.snd)

/-- Handler for `/admin/new_post` (`app.py`, lines 76 to 85). On POST it
reads `title` and `content` from the form (Flask answers 400 Bad Request
if either key is absent), derives a slug, prints a log line, discards
everything and redirects to the admin dashboard; on GET it renders the
creation form. No branch touches the store. -/
def admin_new_post (store : List Post) (method : Method)
    (form : List (String × String)) : HandlerResult :=
  match method with
  | Method.POST =>
    match formGet form "title" with
    | none => ⟨store, Response.badRequest, []⟩
    | some title =>
      let _slug := title.toLower.replace " " "-"
      match formGet form "content" with
      | none => ⟨store, Response.badRequest, []⟩
      | some _content =>
        ⟨store, Response.redirect "/admin", ["New post created: " ++ title]⟩
  | Method.GET => ⟨store, Response.render "admin/new_post.html" 200, []⟩

/-- The two-post store of the end-to-end example in the specification:
first post. Fields the example leaves open are filled arbitrarily. -/
def examplePostA : Post :=
  { id := 1, title := "A", slug := "a", content := "", image := ""
  , category := "Trends", tags := ["x"], date := "2025-01-01" }

/-- The two-post store of the end-to-end example in the specification:
second post. -/
def examplePostB : Post :=
  { id := 2, title := "B", slug := "b", content := "", image := ""
  , category := "Trends", tags := ["y"], date := "2025-01-02" }

/-- The two-post example store. -/
def exampleStore : List Post := [examplePostA, examplePostB]

/-- A post carrying two distinct tags, used to show a single post can occur
in the tag-filter results of several different tags. -/
def multiTagPost : Post :=
  { id := 3, title := "C", slug := "c", content := "", image := ""
  , category := "Trends", tags := ["x", "y"], date := "2025-01-03" }

/-- A post whose tag sequence repeats the same tag, exercising the
duplicate-tags case of the tag filter. -/
def dupTagPost : Post :=
  { id := 4, title := "D", slug := "d", content := "", image := ""
  , category := "Trends", tags := ["x", "x"], date := "2025-01-04" }

/-- `List.find?` returns the head of the filtered list: the first element,
in list order, satisfying the predicate. -/
theorem find?_eq_head?_filter (q : Post → Bool) (l : List Post) :
    l.find? q = (l.filter q).head? := by
  induction l with
  | nil => rfl
  | cons a t ih =>
    cases h : q a with
    | true =>
      rw [List.find?_cons_of_pos t h, List.filter_cons_of_pos h, List.head?_cons]
    | false =>
      have h' : ¬q a = true := by simp [h]
      rw [List.find?_cons_of_neg t h', List.filter_cons_of_neg h', ih]

/-- C1: `find_by_slug` is a linear scan returning the first post in store
order whose slug equals `s` (the head of the sublist of matches); every
returned post has slug `s` and lies in the store; a slug present in the
store always yields such a post; and an absent slug yields the not-found
result `none`. -/
theorem find_by_slug_first_match (store : List Post) (s : String) :
    find_by_slug store s = (store.filter (fun p => p.slug == s)).head? ∧
    (∀ p, find_by_slug store s = some p → p.slug = s ∧ p ∈ store) ∧
    ((∃ p ∈ store, p.slug = s) → ∃ p, find_by_slug store s = some p ∧ p.slug = s) ∧
    ((∀ p ∈ store, p.slug ≠ s) → find_by_slug store s = none) := by
  refine ⟨find?_eq_head?_filter _ store, ?_, ?_, ?_⟩
  · intro p hp
    exact ⟨by simpa using List.find?_some hp, List.mem_of_find?_eq_some hp⟩
  · rintro ⟨p, hp, hs⟩
    have hsome : (store.find? (fun p => p.slug == s)).isSome := by
      rw [List.find?_isSome]
      exact ⟨p, hp, by simpa using hs⟩
    obtain ⟨q, hq⟩ := Option.isSome_iff_exists.mp hsome
    exact ⟨q, hq, by simpa using List.find?_some hq⟩
  · intro h
    rw [find_by_slug, List.find?_eq_none]
    intro p hp
    simpa using h p hp

/-- C2: `filter_by_category c` returns exactly the posts whose `category`
equals `c`: soundness, completeness, store order preserved (the result is
a sublist of the store), multiplicity preserved, and, when the store has
no duplicate records, each matching post appears exactly once. -/
theorem filter_by_category_exact (store : List Post) (c : String) :
    (∀ p ∈ filter_by_category store c, p.category = c) ∧
    (∀ p ∈ store, p.category = c → p ∈ filter_by_category store c) ∧
    (filter_by_category store c).Sublist store ∧
    (∀ p, p.category = c → (filter_by_category store c).count p = store.count p) ∧
    (store.Nodup → ∀ p ∈ store, p.category = c →
      (filter_by_category store c).count p = 1) := by
  refine ⟨?_, ?_, List.filter_sublist store, ?_, ?_⟩
  · intro p hp
    simpa using (List.mem_filter.mp hp).2
  · intro p hp he
    exact List.mem_filter.mpr ⟨hp, by simpa using he⟩
  · intro p he
    exact List.count_filter (by simpa using he)
  · intro hnd p hp he
    rw [filter_by_category, List.count_filter (by simpa using he)]
    exact List.count_eq_one_of_mem hnd hp

/-- C3: `filter_by_tag t` returns exactly the posts whose `tags` sequence
contains `t` under exact string membership, in store order; posts without
`t` are excluded. -/
theorem filter_by_tag_exact (store : List Post) (t : String) :
    (∀ p ∈ filter_by_tag store t, t ∈ p.tags) ∧
    (∀ p ∈ store, t ∈ p.tags → p ∈ filter_by_tag store t) ∧
    (filter_by_tag store t).Sublist store ∧
    (∀ p ∈ store, t ∉ p.tags → p ∉ filter_by_tag store t) := by
  refine ⟨?_, ?_, List.filter_sublist store, ?_⟩
  · intro p hp
    have := (List.mem_filter.mp hp).2
    simpa [List.contains] using this
  · intro p hp hm
    exact List.mem_filter.mpr ⟨hp, by simpa [List.contains] using hm⟩
  · intro p _hp hm hf
    have := (List.mem_filter.mp hf).2
    exact hm (by simpa [List.contains] using this)

/-- C4: filtering by a category with no matching post, or by a tag carried
by no post, returns the empty list; the operations are total functions, so
no exception or error signal is possible. -/
theorem filters_empty_when_no_match (store : List Post) (c t : String)
    (hc : ∀ p ∈ store, p.category ≠ c) (ht : ∀ p ∈ store, t ∉ p.tags) :
    filter_by_category store c = [] ∧ filter_by_tag store t = [] := by
  constructor
  · rw [filter_by_category, List.filter_eq_nil_iff]
    intro p hp
    simpa using hc p hp
  · rw [filter_by_tag, List.filter_eq_nil_iff]
    intro p hp
    simpa [List.contains] using ht p hp

/-- Witness for C4 at a concrete store and unmatched names. -/
theorem filters_empty_when_no_match_witness :
    filter_by_category exampleStore "Nope" = [] ∧
    filter_by_tag exampleStore "nope" = [] :=
  filters_empty_when_no_match exampleStore "Nope" "nope" (by decide) (by decide)

/-- C5: no handler mutates the Post Store: after the slug, category and
tag lookups and after the stub creation path (either method, any form
data), the store is exactly the list it was before the call. -/
theorem handlers_preserve_store (store : List Post) (s c t : String)
    (m : Method) (form : List (String × String)) :
    (post_route store s).posts = store ∧
    (category_route store c).posts = store ∧
    (tag_route store t).posts = store ∧
    (admin_new_post store m form).posts = store := by
  refine ⟨?_, rfl, rfl, ?_⟩
  · cases h : find_by_slug store s <;> simp [post_route, h]
  · cases m with
    | GET => rfl
    | POST =>
      cases h1 : formGet form "title" <;> cases h2 : formGet form "content" <;>
        simp [admin_new_post, h1, h2]

/-- C6: a GET to the post route with a slug matching no stored post yields
the not-found page rendered with HTTP status 404. -/
theorem post_route_missing_slug_404 (store : List Post) (s : String)
    (h : ∀ p ∈ store, p.slug ≠ s) :
    (post_route store s).response = Response.render "404.html" 404 := by
  have hn : find_by_slug store s = none := by
    rw [find_by_slug, List.find?_eq_none]
    intro p hp
    simpa using h p hp
  simp [post_route, hn]

/-- Witness for C6 at the example store and an absent slug. -/
theorem post_route_missing_slug_404_witness :
    (post_route exampleStore "zzz").response = Response.render "404.html" 404 :=
  post_route_missing_slug_404 exampleStore "zzz" (by decide)

/-- C7: on the concrete two-post example store, the category filter keeps
both posts in order, slug lookup of "b" yields the second post, the tag
filter on "x" keeps only the first, and slug lookup of "z" is not found. -/
theorem end_to_end_example :
    filter_by_category exampleStore "Trends" = [examplePostA, examplePostB] ∧
    find_by_slug exampleStore "b" = some examplePostB ∧
    filter_by_tag exampleStore "x" = [examplePostA] ∧
    find_by_slug exampleStore "z" = none := by decide

/-- C8: a post occurring once in the store whose `tags` sequence contains
`t` two or more times still appears exactly once in `filter_by_tag t`:
membership is tested once per post, not once per occurrence. -/
theorem filter_by_tag_duplicate_once (store : List Post) (t : String) (p : Post)
    (hcount : store.count p = 1) (hdup : 2 ≤ p.tags.count t) :
    (filter_by_tag store t).count p = 1 := by
  have hmem : t ∈ p.tags := by
    have hpos : 0 < p.tags.count t := lt_of_lt_of_le (by norm_num) hdup
    exact List.count_pos_iff.mp hpos
  have hcont : p.tags.contains t = true := by
    simpa [List.contains] using hmem
  rw [filter_by_tag, @List.count_filter Post _ _ (fun q => q.tags.contains t) p store hcont,
    hcount]

/-- Witness for C8 at a store holding one post that repeats tag "x". -/
theorem filter_by_tag_duplicate_once_witness :
    (filter_by_tag [dupTagPost] "x").count dupTagPost = 1 :=
  filter_by_tag_duplicate_once [dupTagPost] "x" dupTagPost (by decide) (by decide)

/-- C9: for distinct category names the category-filter results are
disjoint, since each post carries exactly one category string; by
contrast, one post can occur in the tag-filter results of two different
tags. -/
theorem category_results_disjoint (store : List Post) (c1 c2 : String) (p : Post)
    (hne : c1 ≠ c2) (h1 : p ∈ filter_by_category store c1) :
    p ∉ filter_by_category store c2 ∧
    ∃ st t1 t2, ∃ q : Post, t1 ≠ t2 ∧ q ∈ filter_by_tag st t1 ∧ q ∈ filter_by_tag st t2 := by
  constructor
  · intro h2
    have e1 : p.category = c1 := by simpa using (List.mem_filter.mp h1).2
    have e2 : p.category = c2 := by simpa using (List.mem_filter.mp h2).2
    exact hne (e1.symm.trans e2)
  · exact ⟨[multiTagPost], "x", "y", multiTagPost, by decide, by decide, by decide⟩

/-- Witness for C9 at the example store and two distinct categories. -/
theorem category_results_disjoint_witness :
    examplePostA ∉ filter_by_category exampleStore "Other" ∧
    (∃ st t1 t2, ∃ q : Post,
      t1 ≠ t2 ∧ q ∈ filter_by_tag st t1 ∧ q ∈ filter_by_tag st t2) :=
  category_results_disjoint exampleStore "Trends" "Other" examplePostA
    (by decide) (by decide)

/-- C10: every POST to the creation route whose form data binds both
`title` and `content` — any values, empty strings included — is answered
with a redirect to the admin dashboard, never an error response and never
a re-render of the creation form. -/
theorem admin_new_post_always_redirects (store : List Post)
    (form : List (String × String)) (title content : String)
    (ht : formGet form "title" = some title)
    (hc : formGet form "content" = some content) :
    (admin_new_post store Method.POST form).response = Response.redirect "/admin" := by
  simp [admin_new_post, ht, hc]

/-- Witness for C10 with both fields present but empty. -/
theorem admin_new_post_always_redirects_witness :
    (admin_new_post posts Method.POST [("title", ""), ("content", "")]).response
      = Response.redirect "/admin" :=
  admin_new_post_always_redirects posts [("title", ""), ("content", "")] "" ""
    (by decide) (by decide)
